import Mathlib

/-!
Shallow embedding of the dispatch-and-delivery core of the book-to-kindle
bot (src/main.go) and proofs about its claims.

Conventions:
* Go strings are Lean `String`, Go `int`/`int64` are Lean `Int`, byte
  streams are `List Nat`.
* The external collaborators (SQLite store, Telegram API, SMTP dialer,
  HTTP client) are modelled as oracles: a record of the outcomes the
  collaborator would return, passed as an explicit environment.  The
  embedded functions are translated from the Go control flow and record
  every observable action (user-facing messages, operator log entries,
  rows inserted, which network steps were invoked).
* `slog.Error(msg, "error", err, ...)` calls are modelled as appending
  the message text together with the error to an operator log.
-/

namespace BookToKindle

/-- Error returned by `Db.GetKindleEmail` (main.go:90-94): the `Scan` can
fail either because no row exists for the user (`sql.ErrNoRows`) or
because of any other store/query failure. -/
inductive DbErr
  | errNoRows
  | other (msg : String)
deriving DecidableEq, Repr

/-- The configuration fields of `BotConfig` (main.go:23-30) that the
delivery pipeline reads.  `main` (main.go:411-418) sets
`MaxFileSize = 20*1024*1024` and `MaxWorkers = 10`. -/
structure BotConfig where
  MaxWorkers : Nat
  MaxFileSize : Int
deriving DecidableEq, Repr

/-- The fields of a payload-carrying update that `handleDocument`
(main.go:214-253) reads: `update.Message.From.ID`,
`update.Message.Chat.ID` and the four `update.Message.Document` fields. -/
structure DocInput where
  fromId : Int
  chatId : Int
  mimeType : String
  fileSize : Int
  fileId : String
  fileName : String
deriving DecidableEq, Repr

/-- One row of the `sent_books` table as inserted by `Db.logSentBook`
(main.go:104-107): `INSERT INTO sent_books (book_name, file_size,
telegram_id)`. -/
structure SentBook where
  bookName : String
  fileSize : Int
  telegramId : Int
deriving DecidableEq, Repr

/-- Oracle for the collaborator calls `handleDocument` makes, in program
order: the store lookup, the download, the SMTP send, the audit insert.
Each field is the outcome that call would produce for this event. -/
structure DocEnv where
  getKindleEmail : Except DbErr String
  downloadResult : Except String (List Nat)
  sendEmailResult : Except String Unit
  logSentBookResult : Except String Unit
deriving Repr

/-- Everything observable about one `handleDocument` run: the texts sent
to the chat via `sendMessage` (in order), the `sent_books` rows inserted,
the operator log entries, and whether the fetch (`downloadTelegramFile`)
and transmit (`sendEmail`) steps were invoked at all. -/
structure DocResult where
  userMessages : List String
  sentBooks : List SentBook
  operatorLogs : List String
  downloadInvoked : Bool
  sendEmailInvoked : Bool
deriving DecidableEq, Repr

/-- The mime-type allow-list `supportedMimeTypes` (main.go:60-65), a map
from mime type to `true` for exactly four entries; a Go map lookup of a
missing key yields `false`. -/
def supportedMimeTypes (m : String) : Bool :=
  m == "application/pdf" || m == "application/epub+zip" ||
  m == "application/vnd.amazon.ebook" || m == "application/x-mobipocket-ebook"

/-- `handleDocument` (main.go:214-253), translated step for step:
1. `GetKindleEmail`; on any error send the configure-first notice and stop;
2. reject unsupported mime types;
3. reject `FileSize > MaxFileSize`;
4. notify, then `downloadTelegramFile`; on error log and send a fixed notice;
5. notify, then `sendEmail`; on error log and send a fixed notice;
6. `logSentBook`; on error only log for operators (no return);
7. send the success notice. -/
def handleDocument (cfg : BotConfig) (env : DocEnv) (d : DocInput) : DocResult :=
  match env.getKindleEmail with
  | .error _ =>
      { userMessages := ["Please set your Kindle email address first using /set_kindle_email"]
        sentBooks := [], operatorLogs := []
        downloadInvoked := false, sendEmailInvoked := false }
  | .ok _kindleEmail =>
      if !(supportedMimeTypes d.mimeType) then
        { userMessages := ["Unsupported file type. Try sending a PDF, EPUB, or MOBI file"]
          sentBooks := [], operatorLogs := []
          downloadInvoked := false, sendEmailInvoked := false }
      else if d.fileSize > cfg.MaxFileSize then
        { userMessages := ["File is too large. Maximum file size is 20MB"]
          sentBooks := [], operatorLogs := []
          downloadInvoked := false, sendEmailInvoked := false }
      else
        match env.downloadResult with
        | .error e =>
            { userMessages := ["Downloading file...",
                               "Error downloading file, please try again later"]
              sentBooks := []
              operatorLogs := ["error downloading file: " ++ e]
              downloadInvoked := true, sendEmailInvoked := false }
        | .ok _fileBytes =>
            match env.sendEmailResult with
            | .error e =>
                { userMessages := ["Downloading file...",
                                   "Download successful. Sending file to Kindle...",
                                   "Error sending email, please try again later"]
                  sentBooks := []
                  operatorLogs := ["error sending email: " ++ e]
                  downloadInvoked := true, sendEmailInvoked := true }
            | .ok _ =>
                match env.logSentBookResult with
                | .error e =>
                    { userMessages := ["Downloading file...",
                                       "Download successful. Sending file to Kindle...",
                                       "Book sent to Kindle successfully"]
                      sentBooks := []
                      operatorLogs := ["error logging sent book: " ++ e]
                      downloadInvoked := true, sendEmailInvoked := true }
                | .ok _ =>
                    { userMessages := ["Downloading file...",
                                       "Download successful. Sending file to Kindle...",
                                       "Book sent to Kindle successfully"]
                      sentBooks := [{ bookName := d.fileName, fileSize := d.fileSize,
                                      telegramId := d.fromId }]
                      operatorLogs := []
                      downloadInvoked := true, sendEmailInvoked := true }

/-!
### Retrying network operation

Model of `backoff.Retry(op, backoff.NewExponentialBackOff())` from
github.com/cenkalti/backoff/v4, as used at main.go:269-271 (transmit)
and main.go:379-383 (fetch).  The library is an external collaborator;
the model follows its documented loop: call the operation; on success
return; otherwise ask the policy for the next interval, returning the
last error once the elapsed time would exceed `MaxElapsedTime`.
Durations are in milliseconds as `Nat`; randomization of the interval
and time spent inside the operation are abstracted away (the model's
elapsed time is the sum of the slept intervals).  The Go library treats
`MaxElapsedTime = 0` as "no ceiling", under which the loop need not
terminate; the model carries the finite-ceiling requirement (and the
positivity of the default intervals) as fields, matching the library's
defaults (500ms initial, multiplier 1.5, 60s max interval, 15min max
elapsed). -/

/-- Parameters of `backoff.ExponentialBackOff`, restricted to policies
with a finite elapsed-time ceiling and positive intervals (all true of
`backoff.NewExponentialBackOff()`).  The multiplier is the rational
`multiplierNum / multiplierDen` (3/2 for the default 1.5). -/
structure ExponentialBackOff where
  initialInterval : Nat
  multiplierNum : Nat
  multiplierDen : Nat
  maxInterval : Nat
  maxElapsedTime : Nat
  initialInterval_pos : 0 < initialInterval
  multiplierDen_pos : 0 < multiplierDen
  multiplier_ge_one : multiplierDen ≤ multiplierNum
  maxInterval_pos : 0 < maxInterval
  maxElapsedTime_pos : 0 < maxElapsedTime

/-- `backoff.NewExponentialBackOff()` defaults, in milliseconds. -/
def NewExponentialBackOff : ExponentialBackOff where
  initialInterval := 500
  multiplierNum := 3
  multiplierDen := 2
  maxInterval := 60000
  maxElapsedTime := 900000
  initialInterval_pos := by decide
  multiplierDen_pos := by decide
  multiplier_ge_one := by decide
  maxInterval_pos := by decide
  maxElapsedTime_pos := by decide

/-- `incrementCurrentInterval`: the next interval is the current one
times the multiplier, capped at `MaxInterval`. -/
def incrementCurrentInterval (p : ExponentialBackOff) (ci : Nat) : Nat :=
  min (ci * p.multiplierNum / p.multiplierDen) p.maxInterval

/-- The retry loop of `backoff.Retry`, indexing the underlying operation
by attempt number so that different attempts may have different
outcomes.  Returns the result together with the number of attempts made.
`s` is `(currentInterval, elapsed)`; `NextBackOff` returns Stop exactly
when `elapsed + next > MaxElapsedTime`. -/
def retryAux {E A : Type} (p : ExponentialBackOff) (op : Nat → Except E A)
    (attempt : Nat) (ci elapsed : Nat) (hci : 0 < ci) : Except E A × Nat :=
  match op attempt with
  | .ok a => (.ok a, attempt + 1)
  | .error e =>
      if h : elapsed + ci > p.maxElapsedTime then
        (.error e, attempt + 1)
      else
        retryAux p op (attempt + 1) (incrementCurrentInterval p ci) (elapsed + ci)
          (lt_min
            (Nat.div_pos
              (le_trans p.multiplier_ge_one (Nat.le_mul_of_pos_left _ hci))
              p.multiplierDen_pos)
            p.maxInterval_pos)
termination_by p.maxElapsedTime + 1 - elapsed
decreasing_by omega

/-- `backoff.Retry(op, p)`: run the loop from the reset state
(`currentInterval = InitialInterval`, zero elapsed time). -/
def retry {E A : Type} (p : ExponentialBackOff) (op : Nat → Except E A) :
    Except E A × Nat :=
  retryAux p op 0 p.initialInterval 0 p.initialInterval_pos

/-- The interval the policy sleeps after attempt `k` fails: the initial
interval grown `k` times.  This is the `currentInterval` the loop holds
when it makes attempt `k`. -/
def nthInterval (p : ExponentialBackOff) : Nat → Nat
  | 0 => p.initialInterval
  | k + 1 => incrementCurrentInterval p (nthInterval p k)

/-- The total time slept before attempt `k` is made: the sum of the
first `k` intervals.  This is the `elapsed` the loop holds when it
makes attempt `k`; the loop retries after a failed attempt `k` exactly
when `elapsedBefore k + nthInterval k ≤ maxElapsedTime`. -/
def elapsedBefore (p : ExponentialBackOff) : Nat → Nat
  | 0 => 0
  | k + 1 => elapsedBefore p k + nthInterval p k

/-!
### Fetch step: downloadTelegramFile
-/

/-- Oracle for the collaborator calls `downloadTelegramFile`
(main.go:367-391) makes: `GetFile`, `GetFileDirectURL` and, per retry
attempt, the HTTP GET whose successful body is a byte stream. -/
structure DownloadEnv where
  getFile : Except String Unit
  getFileDirectURL : Except String String
  httpGet : Nat → Except String (List Nat)

/-- `downloadTelegramFile` (main.go:367-391): resolve the file handle
and its direct URL, fetch it under `backoff.Retry` with
`backoff.NewExponentialBackOff()`, and read the body through
`io.ReadAll(io.LimitReader(resp.Body, int64(MaxFileSize)))`, i.e. take
at most `MaxFileSize` bytes of the actual stream (a negative
`MaxFileSize` limit reads zero bytes, hence `Int.toNat`). -/
def downloadTelegramFile (cfg : BotConfig) (p : ExponentialBackOff)
    (env : DownloadEnv) : Except String (List Nat) :=
  match env.getFile with
  | .error e => .error ("error getting file info: " ++ e)
  | .ok _ =>
      match env.getFileDirectURL with
      | .error e => .error ("error getting file URL: " ++ e)
      | .ok _fileUrl =>
          match (retry p env.httpGet).1 with
          | .error e => .error ("error downloading file: " ++ e)
          | .ok body => .ok (body.take cfg.MaxFileSize.toNat)

/-!
### Destination validation: validateEmail and setKindleEmailCommand
-/

/-- Result of Go `net/mail.ParseAddress`: a display name and the bare
addr-spec. -/
structure MailAddress where
  Name : String
  Address : String
deriving DecidableEq, Repr

/-- The character `@`. -/
def atSignChar : Char := Char.ofNat 64

/-- The character `<`. -/
def leftAngleChar : Char := Char.ofNat 60

/-- The character `>`. -/
def rightAngleChar : Char := Char.ofNat 62

/-- Split a character list at every occurrence of `c` (the pieces do
not contain `c`); structural-recursion counterpart of splitting a Go
string on a one-character separator. -/
def splitOnChar (c : Char) : List Char → List (List Char)
  | [] => [[]]
  | x :: xs =>
      if x = c then [] :: splitOnChar c xs
      else
        match splitOnChar c xs with
        | [] => [[x]]
        | g :: gs => (x :: g) :: gs

/-- Go `strings.HasSuffix` on the character lists of the two strings. -/
def stringHasSuffix (s pat : String) : Bool :=
  pat.toList.isSuffixOf s.toList

/-- Whether a string is a plausible bare addr-spec `local@domain` with
both parts non-empty. -/
def isAddrSpec (a : List Char) : Bool :=
  match splitOnChar atSignChar a with
  | [l, d] => !l.isEmpty && !d.isEmpty
  | _ => false

/-- Model of Go `net/mail.ParseAddress` (standard library, external to
src/), restricted to the two RFC 5322 shapes relevant here: a bare
addr-spec `local@domain`, and an angle-addr `display <local@domain>`
(display possibly empty) whose parsed `Address` is the part between the
brackets.  Error messages paraphrase the Go ones; their exact text is
not load-bearing, only that parse failures produce error text distinct
from the fixed user notices. -/
def parseAddress (s : String) : Except String MailAddress :=
  let cs := s.toList
  if cs.contains leftAngleChar then
    match splitOnChar leftAngleChar cs with
    | [name, rest] =>
        if rest.getLast? = some rightAngleChar then
          let addr := rest.dropLast
          if isAddrSpec addr then .ok { Name := name.asString, Address := addr.asString }
          else .error "mail: no addr-spec"
        else .error "mail: unclosed angle-addr"
    | _ => .error "mail: expected single address"
  else
    if isAddrSpec cs then .ok { Name := "", Address := s }
    else .error "mail: missing at-sign or angle-addr"

/-- `validateEmail` (main.go:353-365): parse the input with
`mail.ParseAddress`; on parse failure wrap the parser error with
`fmt.Errorf("invalid email address: %w", err)`; require the parsed
`address.Address` to end in `"@kindle.com"` (`strings.HasSuffix`); on
success return the ORIGINAL input string `email`, not the parsed
address. -/
def validateEmail (email : String) : Except String String :=
  match parseAddress email with
  | .error e => .error ("invalid email address: " ++ e)
  | .ok address =>
      if !(stringHasSuffix address.Address "@kindle.com") then
        .error "email address is not a kindle email address"
      else
        .ok email

/-- Everything observable about one `setKindleEmailCommand` run: texts
sent to the chat, the `users` row written by `SetKindleEmail` (if any),
and operator log entries. -/
structure CmdResult where
  userMessages : List String
  written : Option (Int × String)
  operatorLogs : List String
deriving DecidableEq, Repr

/-- `setKindleEmailCommand` (main.go:327-347): empty argument is
rejected with a fixed notice; a `validateEmail` failure is sent to the
user verbatim via `b.sendMessage(chatId, err.Error())`; otherwise
`SetKindleEmail` upserts `(fromId, kindleEmail)` — `setResult` is the
oracle for that store call — and the user is notified.  No store write
happens on any validation failure. -/
def setKindleEmailCommand (setResult : Except String Unit)
    (fromId _chatId : Int) (args : String) : CmdResult :=
  if args == "" then
    { userMessages := ["Please provide your Kindle email address"]
      written := none, operatorLogs := [] }
  else
    match validateEmail args with
    | .error e =>
        { userMessages := [e], written := none, operatorLogs := [] }
    | .ok kindleEmail =>
        match setResult with
        | .error e =>
            { userMessages := ["Error setting Kindle email address, please try again later"]
              written := none
              operatorLogs := ["error setting kindle email: " ++ e] }
        | .ok _ =>
            { userMessages := ["Kindle email address set to " ++ kindleEmail ++ " successfully"]
              written := some (fromId, kindleEmail)
              operatorLogs := [] }

/-!
### Per-task isolation: handleUpdate with Go panic/recover semantics

`tgbotapi.Update` carries pointer fields; dereferencing a nil pointer
panics.  `handleUpdate` (main.go:186-208) installs a deferred function
that calls `recover()` and then logs with `update.Message.From.ID` and
`update.Message.Chat.ID`.  In Go, a panic raised inside the deferred
function AFTER `recover()` has consumed the original panic resumes
unwinding; no further recover exists in the goroutine, so the runtime
kills the whole process.  The model represents nil pointers as `none`
and a panicking computation as `Except GoPanic`.
-/

/-- A Go runtime panic (here always a nil-pointer dereference). -/
inductive GoPanic
  | nilPointerDereference
deriving DecidableEq, Repr

/-- `tgbotapi.User` pointer target: only `ID` is read by the core. -/
structure TUser where
  ID : Int
deriving DecidableEq, Repr

/-- `tgbotapi.Chat` pointer target: only `ID` is read by the core. -/
structure TChat where
  ID : Int
deriving DecidableEq, Repr

/-- The `tgbotapi.Message` pointer target, with its own pointer fields
(`From`, `Chat`, `Document`) as `Option`. -/
structure TMessage where
  From : Option TUser
  Chat : Option TChat
  Document : Option DocInput
deriving DecidableEq, Repr

/-- A `tgbotapi.Update`: `Message` is a pointer and is nil for update
kinds that carry no message (edited messages, callback queries, channel
posts, ...). -/
structure Update where
  Message : Option TMessage
deriving DecidableEq, Repr

/-- The body of `handleUpdate` (main.go:197-207) up to its first nil
dereference: `update.Message.Document` dereferences `Message`; the
document path then dereferences `From` (`GetKindleEmail` argument,
main.go:215) and `Chat` (`sendMessage`, main.go:217 onwards); the
command and unsupported paths dereference `Chat` for their reply.
Returns `ok` when the routed handler runs to completion without a nil
dereference. -/
def handleUpdateBody (u : Update) : Except GoPanic Unit :=
  match u.Message with
  | none => .error .nilPointerDereference
  | some m =>
      match m.Document with
      | some _ =>
          match m.From with
          | none => .error .nilPointerDereference
          | some _ =>
              match m.Chat with
              | none => .error .nilPointerDereference
              | some _ => .ok ()
      | none =>
          match m.Chat with
          | none => .error .nilPointerDereference
          | some _ => .ok ()

/-- The deferred recover handler (main.go:187-195): after `recover()`
it evaluates `update.Message.From.ID` and `update.Message.Chat.ID` as
`slog.Error` arguments — each dereference can itself panic.  Returns
the operator log entry it writes when it survives. -/
def recoverHandler (u : Update) : Except GoPanic (List String) :=
  match u.Message with
  | none => .error .nilPointerDereference
  | some m =>
      match m.From with
      | none => .error .nilPointerDereference
      | some _ =>
          match m.Chat with
          | none => .error .nilPointerDereference
          | some _ => .ok ["recovered from panic in handleUpdate"]

/-- How one per-event task ends. -/
inductive TaskOutcome
  | completed
  | recoveredLogged
  | processCrashed
deriving DecidableEq, Repr

/-- `handleUpdate` (main.go:186-208) as a whole: run the body; if it
panics, run the recover handler; if the handler itself panics, the new
panic escapes the goroutine and the Go runtime terminates the process. -/
def handleUpdateOutcome (u : Update) : TaskOutcome :=
  match handleUpdateBody u with
  | .ok _ => .completed
  | .error _ =>
      match recoverHandler u with
      | .ok _ => .recoveredLogged
      | .error _ => .processCrashed

/-!
### Bounded dispatcher: the worker pool in Start

`Start` (main.go:150-166) makes `workerPool := make(chan struct\x7b\x7d,
b.config.MaxWorkers)`; for each update it sends into the channel (this
blocks while the buffer holds `MaxWorkers` tokens) and spawns a
goroutine that receives one token back in a `defer` when the task ends.
The model is the induced transition system on the number of in-flight
tasks: dispatching is enabled only below `MaxWorkers`, and a task end
consumes one in-flight task.
-/

/-- A state change of the worker pool: a dispatch (channel send plus
`go`) or the deferred channel receive when a task ends. -/
inductive WorkerEvent
  | dispatch
  | taskEnd
deriving DecidableEq, Repr

/-- The worker-pool transition function on the in-flight count:
`none` means the event is blocked (a send into a full buffer, or a
receive with nothing in flight) and cannot occur. -/
def workerStep (N : Nat) : Nat → WorkerEvent → Option Nat
  | inFlight, .dispatch => if inFlight < N then some (inFlight + 1) else none
  | inFlight, .taskEnd => if 0 < inFlight then some (inFlight - 1) else none

/-- In-flight counts reachable from the start of the dispatch loop
(nothing in flight) by any interleaving of dispatches and task ends. -/
inductive SlotReachable (N : Nat) : Nat → Prop
  | init : SlotReachable N 0
  | step {k k2 : Nat} {ev : WorkerEvent} :
      SlotReachable N k → workerStep N k ev = some k2 → SlotReachable N k2

/-- The goroutine body spawned per update (main.go:159-162): it runs
`handleUpdate` under `defer func() \x7b <-workerPool \x7d()`.  Go runs
the deferred receive both when `handleUpdate` returns normally and
while unwinding when a panic escapes it, so the task contributes
exactly one `taskEnd` whatever its outcome. -/
def spawnedTask (u : Update) : TaskOutcome × List WorkerEvent :=
  (handleUpdateOutcome u, [WorkerEvent.taskEnd])

/-!
### Concrete fixtures
-/

/-- The configuration `main` builds (main.go:411-418): ten workers and a
20 MiB size ceiling. -/
def mainConfig : BotConfig := { MaxWorkers := 10, MaxFileSize := 20971520 }

/-- A concrete well-formed PDF payload event. -/
def samplePdf : DocInput :=
  { fromId := 7, chatId := 8, mimeType := "application/pdf", fileSize := 3,
    fileId := "fid", fileName := "book.pdf" }

/-- An oracle where every collaborator call succeeds. -/
def allOkEnv : DocEnv :=
  { getKindleEmail := .ok "k@kindle.com", downloadResult := .ok [1, 2, 3],
    sendEmailResult := .ok (), logSentBookResult := .ok () }

/-- An oracle where lookup, fetch and transmit succeed but the audit
insert fails. -/
def auditFailureEnv : DocEnv :=
  { getKindleEmail := .ok "k@kindle.com", downloadResult := .ok [1, 2, 3],
    sendEmailResult := .ok (), logSentBookResult := .error "disk full" }

/-- The complete set of texts `handleDocument` can pass to `sendMessage`
(main.go:217-252); each is a string literal in the source, independent
of any error value. -/
def fixedDocumentNotices : List String :=
  ["Please set your Kindle email address first using /set_kindle_email",
   "Unsupported file type. Try sending a PDF, EPUB, or MOBI file",
   "File is too large. Maximum file size is 20MB",
   "Downloading file...",
   "Error downloading file, please try again later",
   "Download successful. Sending file to Kindle...",
   "Error sending email, please try again later",
   "Book sent to Kindle successfully"]

/-- Whether the address parsed from `s` carries the required
`"@kindle.com"` suffix (`false` when `s` does not parse). -/
def parsedSuffixOk (s : String) : Bool :=
  match parseAddress s with
  | .ok a => stringHasSuffix a.Address "@kindle.com"
  | .error _ => false

/-!
## Helper lemmas
-/

/-- `backoff.Retry` returns immediately with the operation's value when
the first attempt succeeds. -/
theorem retry_ok_first {E A : Type} (p : ExponentialBackOff) (op : Nat → Except E A)
    (a : A) (h : op 0 = .ok a) : retry p op = (.ok a, 1) := by
  unfold retry retryAux
  simp [h]

/-- The number of attempts the retry loop makes is bounded by the
elapsed-time ceiling: every slept interval is at least one unit. -/
theorem retryAux_attempts_le {E A : Type} (p : ExponentialBackOff) (op : Nat → Except E A) :
    ∀ (n attempt ci elapsed : Nat) (hci : 0 < ci), p.maxElapsedTime + 1 - elapsed ≤ n →
      (retryAux p op attempt ci elapsed hci).2 ≤ attempt + 1 + (p.maxElapsedTime + 1 - elapsed) := by
  intro n
  induction n with
  | zero =>
      intro attempt ci elapsed hci hn
      unfold retryAux
      cases hop : op attempt with
      | ok a => simp
      | error e =>
          have : elapsed + ci > p.maxElapsedTime := by omega
          simp [this]
  | succ n ih =>
      intro attempt ci elapsed hci hn
      unfold retryAux
      cases hop : op attempt with
      | ok a => simp
      | error e =>
          by_cases hgt : elapsed + ci > p.maxElapsedTime
          · simp [hgt]
          · simp [hgt]
            have h2 := ih (attempt + 1) (incrementCurrentInterval p ci) (elapsed + ci)
              (lt_min
                (Nat.div_pos
                  (le_trans p.multiplier_ge_one (Nat.le_mul_of_pos_left _ hci))
                  p.multiplierDen_pos)
                p.maxInterval_pos)
              (by omega)
            omega

/-- Every interval the policy produces is positive. -/
theorem nthInterval_pos (p : ExponentialBackOff) (k : Nat) : 0 < nthInterval p k := by
  induction k with
  | zero => exact p.initialInterval_pos
  | succ k ih =>
      unfold nthInterval incrementCurrentInterval
      exact lt_min
        (Nat.div_pos
          (le_trans p.multiplier_ge_one (Nat.le_mul_of_pos_left _ ih))
          p.multiplierDen_pos)
        p.maxInterval_pos

/-- Running the retry loop from the schedule state of attempt `k`: when
attempts `k, ..., k+m-1` all fail, attempt `k+m` succeeds, and the
backoff check passes after each of the failures, the loop really makes
every one of those attempts and returns the success value of attempt
`k+m`. -/
theorem retryAux_success_from {E A : Type} (p : ExponentialBackOff) (op : Nat → Except E A)
    (es : Nat → E) (a : A) :
    ∀ (m k : Nat),
      (∀ j, k ≤ j → j < k + m → op j = .error (es j)) →
      op (k + m) = .ok a →
      (∀ j, k ≤ j → j < k + m → elapsedBefore p j + nthInterval p j ≤ p.maxElapsedTime) →
      retryAux p op k (nthInterval p k) (elapsedBefore p k) (nthInterval_pos p k) =
        (.ok a, k + m + 1) := by
  intro m
  induction m with
  | zero =>
      intro k herr hok helapsed
      unfold retryAux
      simp only [Nat.add_zero] at hok
      simp [hok]
  | succ m ih =>
      intro k herr hok helapsed
      unfold retryAux
      have hk : op k = .error (es k) := herr k (le_refl k) (by omega)
      have hstop : ¬ elapsedBefore p k + nthInterval p k > p.maxElapsedTime := by
        have := helapsed k (le_refl k) (by omega)
        omega
      simp only [hk]
      rw [dif_neg hstop]
      have h2 := ih (k + 1) (fun j h1 h2 => herr j (by omega) (by omega))
        (by have he : k + 1 + m = k + (m + 1) := by omega
            rw [he]; exact hok)
        (fun j h1 h2 => helapsed j (by omega) (by omega))
      have he2 : k + 1 + m + 1 = k + (m + 1) + 1 := by omega
      rw [he2] at h2
      exact h2

/-- When every attempt fails, the retry loop retries on each error and
gives up exactly at the first attempt whose backoff check exceeds the
elapsed-time ceiling: it returns the last attempt's error, the stop
condition holds at the final attempt, and at no earlier attempt. -/
theorem retryAux_all_errors_sched {E A : Type} (p : ExponentialBackOff)
    (op : Nat → Except E A) (es : Nat → E) (h : ∀ i, op i = .error (es i)) :
    ∀ (n k : Nat) (res : Except E A) (cnt : Nat),
      p.maxElapsedTime + 1 - elapsedBefore p k ≤ n →
      retryAux p op k (nthInterval p k) (elapsedBefore p k) (nthInterval_pos p k) =
        (res, cnt) →
      res = .error (es (cnt - 1)) ∧ k < cnt ∧
      elapsedBefore p (cnt - 1) + nthInterval p (cnt - 1) > p.maxElapsedTime ∧
      ∀ j, k ≤ j → j < cnt - 1 → elapsedBefore p j + nthInterval p j ≤ p.maxElapsedTime := by
  intro n
  induction n with
  | zero =>
      intro k res cnt hn hr
      unfold retryAux at hr
      have hkpos := nthInterval_pos p k
      have hstop : elapsedBefore p k + nthInterval p k > p.maxElapsedTime := by omega
      simp only [h k] at hr
      rw [dif_pos hstop] at hr
      cases hr
      exact ⟨by simp, by omega, by simpa using hstop, fun j hj1 hj2 => by omega⟩
  | succ n ih =>
      intro k res cnt hn hr
      unfold retryAux at hr
      simp only [h k] at hr
      by_cases hstop : elapsedBefore p k + nthInterval p k > p.maxElapsedTime
      · rw [dif_pos hstop] at hr
        cases hr
        exact ⟨by simp, by omega, by simpa using hstop, fun j hj1 hj2 => by omega⟩
      · rw [dif_neg hstop] at hr
        have hr2 : retryAux p op (k + 1) (nthInterval p (k + 1)) (elapsedBefore p (k + 1))
            (nthInterval_pos p (k + 1)) = (res, cnt) := hr
        have hkpos := nthInterval_pos p k
        obtain ⟨h1, h2, h3, h4⟩ := ih (k + 1) res cnt
          (by simp only [elapsedBefore]; omega) hr2
        refine ⟨h1, by omega, h3, fun j hj1 hj2 => ?_⟩
        rcases Nat.eq_or_lt_of_le hj1 with rfl | hlt
        · omega
        · exact h4 j hlt hj2

/-- A successful `validateEmail` returns its input unchanged, and the
input parses to an address with the required suffix. -/
theorem validateEmail_ok_elim (email out : String) (h : validateEmail email = .ok out) :
    out = email ∧ parsedSuffixOk email = true := by
  unfold validateEmail at h
  cases hp : parseAddress email with
  | error e => rw [hp] at h; simp at h
  | ok a =>
      rw [hp] at h
      by_cases hs : stringHasSuffix a.Address "@kindle.com" = true
      · simp [hs] at h
        exact ⟨h.symm, by simp [parsedSuffixOk, hp, hs]⟩
      · simp [Bool.not_eq_true] at hs
        simp [hs] at h

/-- In-flight task counts reachable by the dispatch loop never exceed
the worker-pool capacity. -/
theorem slotReachable_le (N k : Nat) (h : SlotReachable N k) : k ≤ N := by
  induction h with
  | init => exact Nat.zero_le N
  | step hr hstep ih =>
      rename_i k k2 ev
      cases ev <;> simp only [workerStep] at hstep <;> split at hstep <;>
        simp_all <;> omega

/-!
## Claim theorems
-/

/-- Claim C1, as amended: a `sent_books` row is created if and only if
the pipeline invoked the transmit step and both the transmit
(`sendEmail`) and the audit insert (`logSentBook`) succeeded.  In
particular zero rows are created for every terminal failure before
transmit (NotConfigured, UnsupportedType, TooLarge, FetchFailed,
TransmitFailed). -/
theorem sentBook_iff_transmit_and_audit (cfg : BotConfig) (env : DocEnv) (d : DocInput) :
    (handleDocument cfg env d).sentBooks ≠ [] ↔
      ((handleDocument cfg env d).sendEmailInvoked = true ∧
       env.sendEmailResult = .ok () ∧ env.logSentBookResult = .ok ()) := by
  obtain ⟨gk, dl, se, lg⟩ := env
  cases gk <;> cases dl <;> cases se <;> cases lg <;>
    simp [handleDocument] <;> split_ifs <;> simp_all

/-- Claim C1, counterexample to the claim as stated: a concrete run in
which lookup, fetch and transmit all succeed but the audit insert
fails; the transmit step succeeded yet zero `sent_books` rows were
created, refuting "a DeliveryRecord is created if and only if the
Transmit step succeeded". -/
theorem sentBook_missing_despite_transmit :
    auditFailureEnv.sendEmailResult = .ok () ∧
    (handleDocument mainConfig auditFailureEnv samplePdf).sendEmailInvoked = true ∧
    (handleDocument mainConfig auditFailureEnv samplePdf).sentBooks = [] :=
  ⟨rfl, rfl, rfl⟩

/-- Claim C2: in the dispatch loop of `Start`, the number of per-event
tasks concurrently in flight never exceeds the worker-pool capacity
`MaxWorkers`, and every spawned task releases its slot exactly once
whatever its outcome (normal completion, recovered panic, or a panic
that escapes), because the release is a deferred channel receive. -/
theorem bounded_dispatch_and_single_release (N k : Nat) (h : SlotReachable N k) :
    k ≤ N ∧ ∀ u : Update, ((spawnedTask u).2.count WorkerEvent.taskEnd = 1 ∧
      (spawnedTask u).2.count WorkerEvent.dispatch = 0) :=
  ⟨slotReachable_le N k h, fun _ => ⟨rfl, rfl⟩⟩

/-- Claim C2, witness: one dispatched task is within the capacity 3,
and a concrete spawned task (here one that crashes the process, the
worst case) still releases exactly once. -/
theorem bounded_dispatch_and_single_release_witness :
    1 ≤ 3 ∧ ((spawnedTask { Message := none }).2.count WorkerEvent.taskEnd = 1 ∧
      (spawnedTask { Message := none }).2.count WorkerEvent.dispatch = 0) :=
  ⟨(bounded_dispatch_and_single_release 3 1
      (SlotReachable.step SlotReachable.init (show workerStep 3 0 .dispatch = some 1 from rfl))).1,
   (bounded_dispatch_and_single_release 3 1
      (SlotReachable.step SlotReachable.init (show workerStep 3 0 .dispatch = some 1 from rfl))).2
     { Message := none }⟩

/-- Claim C3: a payload whose declared mime type is not allow-listed or
whose declared size exceeds the ceiling never reaches the fetch step:
`downloadTelegramFile` is not invoked (and a fortiori neither is
`sendEmail`). -/
theorem invalid_payload_skips_network (cfg : BotConfig) (env : DocEnv) (d : DocInput)
    (h : supportedMimeTypes d.mimeType = false ∨ d.fileSize > cfg.MaxFileSize) :
    (handleDocument cfg env d).downloadInvoked = false ∧
    (handleDocument cfg env d).sendEmailInvoked = false := by
  obtain ⟨gk, dl, se, lg⟩ := env
  cases gk <;> simp [handleDocument] <;> split_ifs <;> simp_all

/-- Claim C3, witness: a text/plain payload with every collaborator
ready to succeed still triggers no fetch and no transmit. -/
theorem invalid_payload_skips_network_witness :
    (handleDocument mainConfig allOkEnv
        { samplePdf with mimeType := "text/plain" }).downloadInvoked = false ∧
    (handleDocument mainConfig allOkEnv
        { samplePdf with mimeType := "text/plain" }).sendEmailInvoked = false :=
  invalid_payload_skips_network mainConfig allOkEnv
    { samplePdf with mimeType := "text/plain" } (Or.inl rfl)

/-- Claim C4: evaluating the per-task boundary at the failing input.
For an update whose `Message` pointer is nil (as the claim's own
example), the body panics with a nil dereference, the deferred recover
handler panics again while evaluating `update.Message.From.ID` for its
log call, and the new panic escapes the goroutine, crashing the whole
process — the failure is neither logged nor contained. -/
theorem nil_message_panic_kills_process :
    handleUpdateBody { Message := none } = .error GoPanic.nilPointerDereference ∧
    recoverHandler { Message := none } = .error GoPanic.nilPointerDereference ∧
    handleUpdateOutcome { Message := none } = TaskOutcome.processCrashed :=
  ⟨rfl, rfl, rfl⟩

/-- Claim C5, as amended: every destination the command path writes
passed `validateEmail` immediately before the write, and the address
PARSED from it ends with `"@kindle.com"`; the stored raw string itself
is the unmodified user input, which need not end with the suffix. -/
theorem stored_destination_was_validated (setResult : Except String Unit)
    (fromId chatId uid : Int) (args v : String)
    (h : (setKindleEmailCommand setResult fromId chatId args).written = some (uid, v)) :
    validateEmail v = .ok v ∧ parsedSuffixOk v = true := by
  unfold setKindleEmailCommand at h
  by_cases he : args == ""
  · simp [he] at h
  · simp only [he] at h
    cases hv : validateEmail args with
    | error e => rw [hv] at h; simp at h
    | ok ke =>
        rw [hv] at h
        cases setResult with
        | error e => simp at h
        | ok u =>
            simp at h
            obtain ⟨hv2, hargs⟩ := validateEmail_ok_elim args ke hv
            have hveq : v = args := by rw [← h.2, hv2]
            subst hveq
            rw [hv2] at hv
            exact ⟨hv, hargs⟩

/-- Claim C5, witness: a plain `x@kindle.com` argument is stored and
indeed validated. -/
theorem stored_destination_was_validated_witness :
    validateEmail "x@kindle.com" = .ok "x@kindle.com" ∧
    parsedSuffixOk "x@kindle.com" = true :=
  stored_destination_was_validated (.ok ()) 1 2 1 "x@kindle.com" "x@kindle.com" rfl

/-- Claim C5, counterexample to the claim as stated: the RFC 5322
angle form `<x@kindle.com>` passes validation (its parsed address is
`x@kindle.com`), so the raw input is stored, and the stored string does
NOT end with `"@kindle.com"`. -/
theorem stored_destination_lacks_suffix :
    (setKindleEmailCommand (.ok ()) 1 2 "<x@kindle.com>").written =
      some (1, "<x@kindle.com>") ∧
    stringHasSuffix "<x@kindle.com>" "@kindle.com" = false :=
  ⟨rfl, by decide⟩

/-- Claim C6: the retry wrapper used for Fetch and Transmit
(a) retries on every error with no retryable-vs-fatal classification:
for EVERY assignment of error values to the first `k` attempts, as long
as the backoff check passes after each failure, the loop makes attempt
`k+1` and returns the operation's first success value (with `k = 0`
this is first-attempt success); (b) when every attempt fails it keeps
retrying until the elapsed-time ceiling is exhausted and no longer — it
returns the last attempt's error, the stop condition
`elapsedBefore + nthInterval > maxElapsedTime` holds at the final
attempt and at no earlier attempt, so the attempt count is exactly the
policy's give-up point; (c) with the finite ceiling it always
terminates, making at most `maxElapsedTime + 2` attempts. -/
theorem retry_contract {E A : Type} (p : ExponentialBackOff) (op : Nat → Except E A)
    (a : A) (es : Nat → E) (k : Nat) :
    ((∀ j, j < k → op j = .error (es j)) → op k = .ok a →
       (∀ j, j < k → elapsedBefore p j + nthInterval p j ≤ p.maxElapsedTime) →
       retry p op = (.ok a, k + 1)) ∧
    ((∀ i, op i = .error (es i)) →
       (retry p op).1 = .error (es ((retry p op).2 - 1)) ∧
       0 < (retry p op).2 ∧
       elapsedBefore p ((retry p op).2 - 1) + nthInterval p ((retry p op).2 - 1) >
         p.maxElapsedTime ∧
       (∀ j, j < (retry p op).2 - 1 →
          elapsedBefore p j + nthInterval p j ≤ p.maxElapsedTime)) ∧
    (retry p op).2 ≤ p.maxElapsedTime + 2 := by
  refine ⟨?_, ?_, ?_⟩
  · intro herr hok helapsed
    have h := retryAux_success_from p op es a k 0
      (fun j h1 h2 => herr j (by omega)) (by simpa using hok)
      (fun j h1 h2 => helapsed j (by omega))
    have he : 0 + k + 1 = k + 1 := by omega
    rw [he] at h
    exact h
  · intro h
    obtain ⟨h1, h2, h3, h4⟩ := retryAux_all_errors_sched p op es h
      (p.maxElapsedTime + 1) 0 (retry p op).1 (retry p op).2
      (by simp [elapsedBefore]) Prod.mk.eta.symm
    exact ⟨h1, h2, h3, fun j hj => h4 j (Nat.zero_le j) hj⟩
  · unfold retry
    have h1 := retryAux_attempts_le p op (p.maxElapsedTime + 1) 0
      p.initialInterval 0 p.initialInterval_pos (le_refl _)
    omega

/-- Claim C6, witness: with the default backoff policy, an operation
failing on its first two attempts and succeeding on the third really is
retried twice and returns the third attempt's value, and an
always-failing operation ends with its error within the attempt
bound. -/
theorem retry_contract_witness :
    retry NewExponentialBackOff
        (fun i => if i < 2 then (.error "boom" : Except String Nat) else .ok 42) =
      (.ok 42, 3) ∧
    (retry NewExponentialBackOff (fun _ => (.error "boom" : Except String Nat))).1 =
      .error "boom" ∧
    (retry NewExponentialBackOff (fun _ => (.error "boom" : Except String Nat))).2 ≤ 900002 := by
  refine ⟨?_, ?_, ?_⟩
  · have h := (retry_contract NewExponentialBackOff
        (fun i => if i < 2 then (.error "boom" : Except String Nat) else .ok 42)
        42 (fun _ => "boom") 2).1
      (by intro j hj; simp [hj]) (by norm_num) (by decide)
    simpa using h
  · have h := ((retry_contract NewExponentialBackOff
        (fun _ => (.error "boom" : Except String Nat)) 42 (fun _ => "boom") 0).2.1
        (fun _ => rfl)).1
    simpa using h
  · have h := (retry_contract NewExponentialBackOff
        (fun _ => (.error "boom" : Except String Nat)) 42 (fun _ => "boom") 0).2.2
    simpa [NewExponentialBackOff] using h

/-- Claim C7: when lookup, fetch and transmit all succeed but the
audit-log insert fails, the user still receives the fixed success
notice (the message sequence is independent of the audit error), the
failure is recorded for operators only, and no row is persisted. -/
theorem audit_failure_still_delivered (cfg : BotConfig) (env : DocEnv) (d : DocInput)
    (ke : String) (bs : List Nat) (e : String)
    (h1 : env.getKindleEmail = .ok ke)
    (h2 : supportedMimeTypes d.mimeType = true)
    (h3 : ¬ d.fileSize > cfg.MaxFileSize)
    (h4 : env.downloadResult = .ok bs)
    (h5 : env.sendEmailResult = .ok ())
    (h6 : env.logSentBookResult = .error e) :
    (handleDocument cfg env d).userMessages =
      ["Downloading file...", "Download successful. Sending file to Kindle...",
       "Book sent to Kindle successfully"] ∧
    (handleDocument cfg env d).operatorLogs = ["error logging sent book: " ++ e] ∧
    (handleDocument cfg env d).sentBooks = [] := by
  simp [handleDocument, h1, h2, h3, h4, h5, h6]

/-- Claim C7, witness: the concrete audit-failure run still reports
success to the user. -/
theorem audit_failure_still_delivered_witness :
    (handleDocument mainConfig auditFailureEnv samplePdf).userMessages =
      ["Downloading file...", "Download successful. Sending file to Kindle...",
       "Book sent to Kindle successfully"] ∧
    (handleDocument mainConfig auditFailureEnv samplePdf).operatorLogs =
      ["error logging sent book: " ++ "disk full"] ∧
    (handleDocument mainConfig auditFailureEnv samplePdf).sentBooks = [] :=
  audit_failure_still_delivered mainConfig auditFailureEnv samplePdf
    "k@kindle.com" [1, 2, 3] "disk full" rfl rfl (by decide) rfl rfl rfl

/-- Claim C8, as amended: every notice the Delivery Pipeline sends to
the user is one of eight fixed literals, independent of any error value
(no raw internal error text).  The destination-validation notice of
`setKindleEmailCommand`, by contrast, echoes the validation error text
verbatim (see the counterexample). -/
theorem document_notices_are_fixed (cfg : BotConfig) (env : DocEnv) (d : DocInput) :
    ∀ m ∈ (handleDocument cfg env d).userMessages, m ∈ fixedDocumentNotices := by
  obtain ⟨gk, dl, se, lg⟩ := env
  cases gk <;> cases dl <;> cases se <;> cases lg <;>
    simp [handleDocument, fixedDocumentNotices] <;> split_ifs <;>
    simp_all

/-- Claim C8, witness: a concrete successful run only emits fixed
notices. -/
theorem document_notices_are_fixed_witness :
    "Downloading file..." ∈ fixedDocumentNotices :=
  document_notices_are_fixed mainConfig allOkEnv samplePdf "Downloading file..."
    (by simp [handleDocument, mainConfig, allOkEnv, samplePdf, supportedMimeTypes])

/-- Claim C8, counterexample to the claim as stated: two invalid
destination addresses produce two different user notices, and the
parse-failure notice is the wrapped internal parser error sent to the
user verbatim via `err.Error()` — not one fixed string per failure
kind. -/
theorem destination_notice_not_fixed :
    (setKindleEmailCommand (.ok ()) 1 2 "foo").userMessages =
      ["invalid email address: " ++ "mail: missing at-sign or angle-addr"] ∧
    (setKindleEmailCommand (.ok ()) 1 2 "a@b.com").userMessages =
      ["email address is not a kindle email address"] ∧
    ("invalid email address: " ++ "mail: missing at-sign or angle-addr" ≠
      "email address is not a kindle email address") :=
  ⟨rfl, rfl, by decide⟩

/-- Claim C9: whatever the declared size said, the fetch step reads the
actual stream through a limit reader: when the stream is longer than
`MaxFileSize`, `downloadTelegramFile` returns exactly the first
`MaxFileSize` bytes and never more. -/
theorem download_caps_bytes (cfg : BotConfig) (p : ExponentialBackOff) (env : DownloadEnv)
    (url : String) (body : List Nat)
    (h1 : env.getFile = .ok ())
    (h2 : env.getFileDirectURL = .ok url)
    (h3 : (retry p env.httpGet).1 = .ok body)
    (h4 : cfg.MaxFileSize.toNat < body.length) :
    downloadTelegramFile cfg p env = .ok (body.take cfg.MaxFileSize.toNat) ∧
    (body.take cfg.MaxFileSize.toNat).length = cfg.MaxFileSize.toNat := by
  constructor
  · simp [downloadTelegramFile, h1, h2, h3]
  · simp [List.length_take]
    omega

/-- Claim C9, witness: a three-byte stream under a two-byte ceiling is
truncated to exactly the first two bytes. -/
theorem download_caps_bytes_witness :
    downloadTelegramFile { MaxWorkers := 10, MaxFileSize := 2 } NewExponentialBackOff
      { getFile := .ok (), getFileDirectURL := .ok "u",
        httpGet := fun _ => .ok [0, 1, 2] } = .ok [0, 1] := by
  have h := download_caps_bytes { MaxWorkers := 10, MaxFileSize := 2 }
    NewExponentialBackOff
    { getFile := .ok (), getFileDirectURL := .ok "u",
      httpGet := fun _ => .ok [0, 1, 2] }
    "u" [0, 1, 2] rfl rfl
    (by rw [retry_ok_first NewExponentialBackOff _ [0, 1, 2] rfl])
    (by decide)
  simpa using h.1

/-- Claim C10: any `GetKindleEmail` error — the no-row case and a
store/query failure alike — halts the pipeline before validation with
the same configure-first notice, no fetch and no row; the two error
kinds are indistinguishable in every observable of the run. -/
theorem lookup_error_uniform (cfg : BotConfig) (env env2 : DocEnv) (d : DocInput)
    (e e2 : DbErr)
    (h : env.getKindleEmail = .error e) (h2 : env2.getKindleEmail = .error e2) :
    (handleDocument cfg env d).userMessages =
      ["Please set your Kindle email address first using /set_kindle_email"] ∧
    (handleDocument cfg env d).downloadInvoked = false ∧
    (handleDocument cfg env d).sentBooks = [] ∧
    handleDocument cfg env d = handleDocument cfg env2 d := by
  simp [handleDocument, h, h2]

/-- Claim C10, witness: `sql.ErrNoRows` and a store failure produce
identical runs. -/
theorem lookup_error_uniform_witness :
    (handleDocument mainConfig
        { allOkEnv with getKindleEmail := .error DbErr.errNoRows } samplePdf).userMessages =
      ["Please set your Kindle email address first using /set_kindle_email"] ∧
    (handleDocument mainConfig
        { allOkEnv with getKindleEmail := .error DbErr.errNoRows } samplePdf).downloadInvoked
      = false ∧
    (handleDocument mainConfig
        { allOkEnv with getKindleEmail := .error DbErr.errNoRows } samplePdf).sentBooks = [] ∧
    handleDocument mainConfig
        { allOkEnv with getKindleEmail := .error DbErr.errNoRows } samplePdf =
      handleDocument mainConfig
        { allOkEnv with getKindleEmail := .error (DbErr.other "db locked") } samplePdf :=
  lookup_error_uniform mainConfig
    { allOkEnv with getKindleEmail := .error DbErr.errNoRows }
    { allOkEnv with getKindleEmail := .error (DbErr.other "db locked") }
    samplePdf DbErr.errNoRows (DbErr.other "db locked") rfl rfl

end BookToKindle
